import Mathlib

/-
Verification of the featureDev chat connector
(src/plugins/amazonq/mynah-ui/src/mynah-ui/ui/apps/featureDevChatConnector.ts).

The connector is a stateless adapter: inbound tagged records from the host
are dispatched to injected UI callbacks, and UI actions are packaged into
tagged records handed to an injected send callback.  We embed it shallowly:
an inbound record is a structure of optional fields (undefined = none), and
every method is a pure function returning the ordered list of observable
events it performs (UI callback invocations, sends to the host, and promise
settlements).  The external collaborators (follow-up generator, diff-tree
action computation) are passed in as function parameters, and the presence
of the two optional UI callbacks is tracked by two booleans.  The source
code contains no logging and no throw statements, so the event vocabulary
has no log or error events; a dispatch that produces the empty trace does
nothing observable.
-/

namespace FeatureDevChat

/-- JavaScript nullish coalescing a ?? b on option-modelled values. -/
def jsOr {α : Type} (a b : Option α) : Option α :=
  match a with
  | some v => some v
  | none => b

/-- String value of the mynah-ui ChatItemType.ANSWER enum member. -/
def ChatItemType.ANSWER : String := "answer"

/-- String value of the mynah-ui ChatItemType.SYSTEM_PROMPT enum member. -/
def ChatItemType.SYSTEM_PROMPT : String := "system-prompt"

/-- Modelled from the spec: DiffTreeFileInfo (../diffTree/types is not under
src/) is a structured file-info entry carrying a path string, of which this
connector only reads the zipFilePath field. -/
structure DiffTreeFileInfo where
  zipFilePath : String
  deriving Repr, DecidableEq

/-- A follow-up option (external mynah-ui ChatItemAction); the connector
carries these values through without inspecting them, so we model them as an
opaque-to-the-connector carrier with one label field. -/
structure ChatItemAction where
  pillText : String
  deriving Repr, DecidableEq

/-- The followUps field of an inbound record is loosely typed: when present
it may or may not actually be an array (the code tests Array.isArray). -/
inductive FollowUpsField where
  | arr (options : List ChatItemAction)
  | notArray
  deriving Repr, DecidableEq

/-- The followUp block of a chat item: a prompt label and option list. -/
structure FollowUpBlock where
  text : Option String := none
  options : List ChatItemAction := []
  deriving Repr, DecidableEq

/-- The fileList block of a chat item (built only in the code-result path). -/
structure FileListBlock where
  rootFolderTitle : String
  filePaths : List String
  deletedFiles : List String
  actions : List ChatItemAction
  deriving Repr, DecidableEq

/-- The UI-facing ChatItem shape; absent fields are none (undefined). -/
structure ChatItem where
  type : Option String := none
  body : Option String := none
  messageId : Option String := none
  relatedContent : Option String := none
  canBeVoted : Option Bool := none
  snapToTop : Option Bool := none
  informationCard : Option String := none
  followUp : Option FollowUpBlock := none
  codeReference : Option String := none
  fileList : Option FileListBlock := none
  deriving Repr, DecidableEq

/-- An inbound record (messageData: any).  Every field the connector reads
is modelled; a field the host did not set is none (undefined). -/
structure MessageData where
  type : Option String := none
  tabID : Option String := none
  messageId : Option String := none
  messageID : Option String := none
  triggerID : Option String := none
  conversationID : Option String := none
  codeGenerationId : Option String := none
  message : Option String := none
  title : Option String := none
  messageType : Option String := none
  canBeVoted : Option Bool := none
  snapToTop : Option Bool := none
  informationCard : Option String := none
  followUps : Option FollowUpsField := none
  filePaths : List DiffTreeFileInfo := []
  deletedFiles : List DiffTreeFileInfo := []
  references : Option String := none
  inProgress : Option Bool := none
  newPlaceholder : Option String := none
  enabled : Option Bool := none
  featureDevEnabled : Option Bool := none
  codeTransformEnabled : Option Bool := none
  docEnabled : Option Bool := none
  codeScanEnabled : Option Bool := none
  codeTestEnabled : Option Bool := none
  authenticatingTabIDs : List String := []
  authType : Option String := none
  disableFileActions : Option Bool := none
  deriving Repr, DecidableEq

/-- An outbound record handed to sendMessageToExtension; the union of all
fields any outbound method sets, absent fields none. -/
structure ExtensionMessage where
  command : Option String := none
  tabID : Option String := none
  tabType : Option String := none
  code : Option String := none
  codeReference : Option String := none
  filePath : Option String := none
  deleted : Option Bool := none
  followUp : Option ChatItemAction := none
  chatMessage : Option String := none
  messageId : Option String := none
  actionName : Option String := none
  vote : Option String := none
  link : Option String := none
  selectedOption : Option String := none
  comment : Option String := none
  tabId : Option String := none
  deriving Repr, DecidableEq

/-- The ChatPayload argument of requestGenerativeAIAnswer. -/
structure ChatPayload where
  chatMessage : String
  deriving Repr, DecidableEq

/-- The external FeedbackPayload shape whose fields sendFeedback spreads
into the outbound record. -/
structure FeedbackPayload where
  messageId : Option String := none
  selectedOption : Option String := none
  comment : Option String := none
  tabId : Option String := none
  deriving Repr, DecidableEq

/-- The two external collaborators the connector calls: the follow-up
generator (followUpGenerator.generateAuthFollowUps) and the diff-tree action
computation (getActions).  Both live outside this file; dispatch is
parameterized over them. -/
structure Collaborators where
  generateAuthFollowUps : String → Option String → FollowUpBlock
  getActions : List DiffTreeFileInfo → List ChatItemAction

/-- Which of the two optional UI callbacks were supplied at construction
(onChatAnswerReceived and onChatAnswerUpdated are the only optional
callbacks the dispatch path tests). -/
structure ConnectorConfig where
  hasOnChatAnswerReceived : Bool
  hasOnChatAnswerUpdated : Bool
  deriving Repr, DecidableEq

/-- One observable action of the connector: a UI callback invocation with
its arguments, a send to the host, or a settlement of the promise returned
by requestGenerativeAIAnswer. -/
inductive Event where
  | sendMessageToExtension (msg : ExtensionMessage)
  | onFileComponentUpdate (tabID : Option String) (filePaths deletedFiles : List DiffTreeFileInfo) (messageId : Option String) (disableFileActions : Option Bool)
  | onChatAnswerUpdated (tabID : Option String) (item : ChatItem)
  | onError (tabID message title : Option String)
  | onWarning (tabID message title : Option String)
  | onChatAnswerReceived (tabID : Option String) (item : ChatItem)
  | onAsyncEventProgress (tabID : Option String) (inProgress : Option Bool) (message : Option String) (cancelButtonWhenLoading : Bool)
  | onUpdatePlaceholder (tabID newPlaceholder : Option String)
  | onChatInputEnabled (tabID : Option String) (enabled : Option Bool)
  | onUpdateAuthentication (featureDevEnabled codeTransformEnabled docEnabled codeScanEnabled codeTestEnabled : Option Bool) (authenticatingTabIDs : List String)
  | onNewTab (tabType : String)
  | resolvePromise
  | rejectPromise
  deriving Repr, DecidableEq

/-- The distinct injected UI callbacks, used to state which callback an
event invokes. -/
inductive UiCallback where
  | fileComponentUpdate
  | chatAnswerUpdated
  | error
  | warning
  | chatAnswerReceived
  | asyncEventProgress
  | updatePlaceholder
  | chatInputEnabled
  | updateAuthentication
  | newTab
  deriving Repr, DecidableEq

/-- The UI callback an event invokes, if any (sends to the host and promise
settlements are not UI callbacks). -/
def Event.uiCallback : Event → Option UiCallback
  | .sendMessageToExtension _ => none
  | .onFileComponentUpdate _ _ _ _ _ => some .fileComponentUpdate
  | .onChatAnswerUpdated _ _ => some .chatAnswerUpdated
  | .onError _ _ _ => some .error
  | .onWarning _ _ _ => some .warning
  | .onChatAnswerReceived _ _ => some .chatAnswerReceived
  | .onAsyncEventProgress _ _ _ _ => some .asyncEventProgress
  | .onUpdatePlaceholder _ _ => some .updatePlaceholder
  | .onChatInputEnabled _ _ => some .chatInputEnabled
  | .onUpdateAuthentication _ _ _ _ _ _ => some .updateAuthentication
  | .onNewTab _ => some .newTab
  | .resolvePromise => none
  | .rejectPromise => none

/-- The distinct UI callbacks a trace invokes, first occurrence first. -/
def uiCallbacksOf (evs : List Event) : List UiCallback :=
  (evs.filterMap Event.uiCallback).dedup

/-- createAnswer: pure mapping from an inbound record to a ChatItem
(featureDevChatConnector.ts lines 198 to 219). -/
def createAnswer (md : MessageData) : ChatItem :=
  { type := md.messageType
    body := md.message
    messageId := some ((jsOr (jsOr md.messageId md.messageID) md.triggerID).getD "")
    relatedContent := none
    canBeVoted := md.canBeVoted
    snapToTop := md.snapToTop
    informationCard := md.informationCard
    followUp :=
      match md.followUps with
      | some (.arr options) =>
          some { text := some (if md.messageType == some ChatItemType.SYSTEM_PROMPT || options.length == 0 then "" else "Please follow up with one of these")
                 options := options }
      | some .notArray => none
      | none => none }

/-- processChatMessage (lines 141 to 146): gated on the presence of
onChatAnswerReceived. -/
def processChatMessage (cfg : ConnectorConfig) (md : MessageData) : List Event :=
  if cfg.hasOnChatAnswerReceived then
    [.onChatAnswerReceived md.tabID (createAnswer md)]
  else []

/-- processCodeResultMessage (lines 148 to 174): resolve the message id over
five fields, send the bookkeeping record, compute diff-tree actions over
filePaths ++ deletedFiles, then hand the answer to onChatAnswerReceived. -/
def processCodeResultMessage (col : Collaborators) (cfg : ConnectorConfig) (md : MessageData) : List Event :=
  if cfg.hasOnChatAnswerReceived then
    let messageId := jsOr (jsOr (jsOr (jsOr md.messageId md.messageID) md.triggerID) md.conversationID) md.codeGenerationId
    let storeMsg : ExtensionMessage :=
      { command := some "store-code-result-message-id"
        tabID := md.tabID
        messageId := messageId
        tabType := some "featuredev" }
    let actions := col.getActions (md.filePaths ++ md.deletedFiles)
    let answer : ChatItem :=
      { type := some ChatItemType.ANSWER
        relatedContent := none
        followUp := none
        canBeVoted := some true
        codeReference := md.references
        messageId := messageId
        fileList := some
          { rootFolderTitle := "Changes"
            filePaths := md.filePaths.map DiffTreeFileInfo.zipFilePath
            deletedFiles := md.deletedFiles.map DiffTreeFileInfo.zipFilePath
            actions := actions }
        body := some "" }
    [.sendMessageToExtension storeMsg, .onChatAnswerReceived md.tabID answer]
  else []

/-- processAuthNeededException (lines 176 to 196): nothing when
onChatAnswerReceived is absent, otherwise two answers in order to the same
tab. -/
def processAuthNeededException (col : Collaborators) (cfg : ConnectorConfig) (md : MessageData) : List Event :=
  if cfg.hasOnChatAnswerReceived then
    [.onChatAnswerReceived md.tabID
      { type := some ChatItemType.ANSWER
        body := md.message
        followUp := none
        canBeVoted := some false },
     .onChatAnswerReceived md.tabID
      { type := some ChatItemType.SYSTEM_PROMPT
        body := none
        followUp := some (col.generateAuthFollowUps "featuredev" md.authType)
        canBeVoted := some false }]
  else []

/-- handleMessageReceive (lines 221 to 287): the inbound dispatch, a chain
of string-equality tests on the type tag, falling through to nothing. -/
def handleMessageReceive (col : Collaborators) (cfg : ConnectorConfig) (md : MessageData) : List Event :=
  if md.type = some "updateFileComponent" then
    [.onFileComponentUpdate md.tabID md.filePaths md.deletedFiles md.messageId md.disableFileActions]
  else if md.type = some "updateChatAnswer" then
    if cfg.hasOnChatAnswerUpdated then
      [.onChatAnswerUpdated md.tabID (createAnswer md)]
    else []
  else if md.type = some "errorMessage" then
    [.onError md.tabID md.message md.title]
  else if md.type = some "showInvalidTokenNotification" then
    [.onWarning md.tabID md.message md.title]
  else if md.type = some "chatMessage" then
    processChatMessage cfg md
  else if md.type = some "codeResultMessage" then
    processCodeResultMessage col cfg md
  else if md.type = some "asyncEventProgressMessage" then
    [.onAsyncEventProgress md.tabID md.inProgress md.message true]
  else if md.type = some "updatePlaceholderMessage" then
    [.onUpdatePlaceholder md.tabID md.newPlaceholder]
  else if md.type = some "chatInputEnabledMessage" then
    [.onChatInputEnabled md.tabID md.enabled]
  else if md.type = some "authenticationUpdateMessage" then
    [.onUpdateAuthentication md.featureDevEnabled md.codeTransformEnabled md.docEnabled md.codeScanEnabled md.codeTestEnabled md.authenticatingTabIDs]
  else if md.type = some "authNeededException" then
    processAuthNeededException col cfg md
  else if md.type = some "openNewTabMessage" then
    [.onNewTab "featuredev"]
  else []

/-- onCodeInsertToCursorPosition (lines 71 to 84); the type argument is
accepted and ignored by the source. -/
def onCodeInsertToCursorPosition (tabID : String) (code : Option String) (_ty : Option String) (codeReference : Option String) : List Event :=
  [.sendMessageToExtension
    { tabID := some tabID
      code := code
      command := some "insert_code_at_cursor_position"
      codeReference := codeReference
      tabType := some "featuredev" }]

/-- onCopyCodeToClipboard (lines 86 to 99); the type argument is accepted
and ignored by the source. -/
def onCopyCodeToClipboard (tabID : String) (code : Option String) (_ty : Option String) (codeReference : Option String) : List Event :=
  [.sendMessageToExtension
    { tabID := some tabID
      code := code
      command := some "code_was_copied_to_clipboard"
      codeReference := codeReference
      tabType := some "featuredev" }]

/-- onOpenDiff (lines 101 to 109). -/
def onOpenDiff (tabID : String) (filePath : String) (deleted : Bool) : List Event :=
  [.sendMessageToExtension
    { command := some "open-diff"
      tabID := some tabID
      filePath := some filePath
      deleted := some deleted
      tabType := some "featuredev" }]

/-- followUpClicked (lines 111 to 118). -/
def followUpClicked (tabID : String) (followUp : ChatItemAction) : List Event :=
  [.sendMessageToExtension
    { command := some "follow-up-was-clicked"
      followUp := some followUp
      tabID := some tabID
      tabType := some "featuredev" }]

/-- requestGenerativeAIAnswer (lines 120 to 128): the promise executor sends
the chat-prompt record and calls neither resolve nor reject, so its trace
holds no promise-settlement event. -/
def requestGenerativeAIAnswer (tabID : String) (payload : ChatPayload) : List Event :=
  [.sendMessageToExtension
    { tabID := some tabID
      command := some "chat-prompt"
      chatMessage := some payload.chatMessage
      tabType := some "featuredev" }]

/-- onFileActionClick (lines 130 to 139). -/
def onFileActionClick (tabID : String) (messageId : String) (filePath : String) (actionName : String) : List Event :=
  [.sendMessageToExtension
    { command := some "file-click"
      tabID := some tabID
      messageId := some messageId
      filePath := some filePath
      actionName := some actionName
      tabType := some "featuredev" }]

/-- onStopChatResponse (lines 289 to 295). -/
def onStopChatResponse (tabID : String) : List Event :=
  [.sendMessageToExtension
    { tabID := some tabID
      command := some "stop-response"
      tabType := some "featuredev" }]

/-- onTabOpen (lines 297 to 303). -/
def onTabOpen (tabID : String) : List Event :=
  [.sendMessageToExtension
    { tabID := some tabID
      command := some "new-tab-was-created"
      tabType := some "featuredev" }]

/-- onTabRemove (lines 305 to 311). -/
def onTabRemove (tabID : String) : List Event :=
  [.sendMessageToExtension
    { tabID := some tabID
      command := some "tab-was-removed"
      tabType := some "featuredev" }]

/-- sendFeedback (lines 313 to 320): the payload fields are spread into the
record; tabType and tabID are written after the spread, and the payload
shape has no command, tabType or tabID key, so none of the three is
overridden. -/
def sendFeedback (tabId : String) (feedbackPayload : FeedbackPayload) : List Event :=
  [.sendMessageToExtension
    { command := some "chat-item-feedback"
      messageId := feedbackPayload.messageId
      selectedOption := feedbackPayload.selectedOption
      comment := feedbackPayload.comment
      tabId := feedbackPayload.tabId
      tabType := some "featuredev"
      tabID := some tabId }]

/-- onChatItemVoted (lines 322 to 330). -/
def onChatItemVoted (tabId : String) (messageId : String) (vote : String) : List Event :=
  [.sendMessageToExtension
    { tabID := some tabId
      messageId := some messageId
      vote := some vote
      command := some "chat-item-voted"
      tabType := some "featuredev" }]

/-- onResponseBodyLinkClick (lines 332 to 340). -/
def onResponseBodyLinkClick (tabID : String) (messageId : String) (link : String) : List Event :=
  [.sendMessageToExtension
    { command := some "response-body-link-click"
      tabID := some tabID
      messageId := some messageId
      link := some link
      tabType := some "featuredev" }]

/-- The twelve recognized inbound type tags, in dispatch order. -/
def recognizedTags : List String :=
  ["updateFileComponent", "updateChatAnswer", "errorMessage",
   "showInvalidTokenNotification", "chatMessage", "codeResultMessage",
   "asyncEventProgressMessage", "updatePlaceholderMessage",
   "chatInputEnabledMessage", "authenticationUpdateMessage",
   "authNeededException", "openNewTabMessage"]

/-- The message id carried by the bookkeeping send of a code-result trace:
the messageId field of the leading store-code-result-message-id record. -/
def codeResultStoreId (evs : List Event) : Option String :=
  match evs with
  | .sendMessageToExtension m :: _ => m.messageId
  | _ => none

/-- Concrete collaborators used to instantiate witness statements. -/
def colW : Collaborators :=
  { generateAuthFollowUps := fun tag auth =>
      { text := some tag, options := [{ pillText := auth.getD "" }] }
    getActions := fun files => files.map fun f => { pillText := f.zipFilePath } }

/-- Configuration with both optional UI callbacks supplied. -/
def cfgBoth : ConnectorConfig :=
  { hasOnChatAnswerReceived := true, hasOnChatAnswerUpdated := true }

/-- Configuration without the onChatAnswerReceived callback. -/
def cfgNoRecv : ConnectorConfig :=
  { hasOnChatAnswerReceived := false, hasOnChatAnswerUpdated := true }

/-- A record with every optional field absent. -/
def mdEmpty : MessageData := {}

/-- An update-chat-answer record in which only the conversation id and the
code-generation id identifier fields are set. -/
def mdOnlyConv : MessageData :=
  { type := some "updateChatAnswer"
    tabID := some "tab-1"
    conversationID := some "conv"
    codeGenerationId := some "cg" }

/-- A record with both an explicit message id and a trigger id. -/
def mdBothIds : MessageData :=
  { type := some "codeResultMessage"
    tabID := some "tab-1"
    messageId := some "mid"
    triggerID := some "trig" }

/-- A code-result record with two added files and one deleted file. -/
def mdCodeRes : MessageData :=
  { type := some "codeResultMessage"
    tabID := some "tab-1"
    messageId := some "mid"
    filePaths := [{ zipFilePath := "src/a.ts" }, { zipFilePath := "src/b.ts" }]
    deletedFiles := [{ zipFilePath := "src/gone.ts" }]
    references := some "refs" }

/-- A chat-message record whose followUps field is a one-element array. -/
def mdWithFollowUps : MessageData :=
  { type := some "chatMessage"
    tabID := some "tab-1"
    messageType := some "answer"
    followUps := some (.arr [{ pillText := "opt" }]) }

/-- The followUp block createAnswer builds for mdWithFollowUps. -/
def fbW : FollowUpBlock :=
  { text := some "Please follow up with one of these"
    options := [{ pillText := "opt" }] }

/-- An auth-needed-exception record. -/
def mdAuth : MessageData :=
  { type := some "authNeededException"
    tabID := some "tab-1"
    message := some "need auth"
    authType := some "full-auth" }

/-- An async-event-progress record whose message field is absent. -/
def mdAsyncNoMsg : MessageData :=
  { type := some "asyncEventProgressMessage"
    tabID := some "tab-1"
    inProgress := some true }

/-- An async-event-progress record with a message. -/
def mdAsyncMsg : MessageData :=
  { type := some "asyncEventProgressMessage"
    tabID := some "tab-1"
    inProgress := some true
    message := some "working" }

/-- A minimal chat-message record. -/
def mdChatMsg : MessageData :=
  { type := some "chatMessage", tabID := some "tab-1" }

/-- A record with an unrecognized type tag. -/
def mdBogus : MessageData :=
  { type := some "bogus", tabID := some "tab-1" }

/-- Nullish coalescing keeps a present left value. -/
@[simp] theorem jsOr_some {α : Type} (v : α) (b : Option α) : jsOr (some v) b = some v := rfl

/-- Nullish coalescing falls through an absent left value. -/
@[simp] theorem jsOr_none {α : Type} (b : Option α) : jsOr none b = b := rfl

/-- C5: every outbound action method hands the injected send callback a
single record whose tabType is the constant featuredev discriminator and
whose command is the documented tag for that method, for all argument
combinations including absent optional fields, and performs no other
observable action. -/
theorem outbound_methods_one_tagged_send :
    (∀ t c ty cr, ∃ m, onCodeInsertToCursorPosition t c ty cr = [Event.sendMessageToExtension m] ∧ m.tabType = some "featuredev" ∧ m.command = some "insert_code_at_cursor_position") ∧
    (∀ t c ty cr, ∃ m, onCopyCodeToClipboard t c ty cr = [Event.sendMessageToExtension m] ∧ m.tabType = some "featuredev" ∧ m.command = some "code_was_copied_to_clipboard") ∧
    (∀ t f d, ∃ m, onOpenDiff t f d = [Event.sendMessageToExtension m] ∧ m.tabType = some "featuredev" ∧ m.command = some "open-diff") ∧
    (∀ t f, ∃ m, followUpClicked t f = [Event.sendMessageToExtension m] ∧ m.tabType = some "featuredev" ∧ m.command = some "follow-up-was-clicked") ∧
    (∀ t p, ∃ m, requestGenerativeAIAnswer t p = [Event.sendMessageToExtension m] ∧ m.tabType = some "featuredev" ∧ m.command = some "chat-prompt") ∧
    (∀ t i f a, ∃ m, onFileActionClick t i f a = [Event.sendMessageToExtension m] ∧ m.tabType = some "featuredev" ∧ m.command = some "file-click") ∧
    (∀ t, ∃ m, onStopChatResponse t = [Event.sendMessageToExtension m] ∧ m.tabType = some "featuredev" ∧ m.command = some "stop-response") ∧
    (∀ t, ∃ m, onTabOpen t = [Event.sendMessageToExtension m] ∧ m.tabType = some "featuredev" ∧ m.command = some "new-tab-was-created") ∧
    (∀ t, ∃ m, onTabRemove t = [Event.sendMessageToExtension m] ∧ m.tabType = some "featuredev" ∧ m.command = some "tab-was-removed") ∧
    (∀ t p, ∃ m, sendFeedback t p = [Event.sendMessageToExtension m] ∧ m.tabType = some "featuredev" ∧ m.command = some "chat-item-feedback") ∧
    (∀ t i v, ∃ m, onChatItemVoted t i v = [Event.sendMessageToExtension m] ∧ m.tabType = some "featuredev" ∧ m.command = some "chat-item-voted") ∧
    (∀ t i l, ∃ m, onResponseBodyLinkClick t i l = [Event.sendMessageToExtension m] ∧ m.tabType = some "featuredev" ∧ m.command = some "response-body-link-click") := by
  refine ⟨?_, ?_, ?_, ?_, ?_, ?_, ?_, ?_, ?_, ?_, ?_, ?_⟩ <;> intros <;> exact ⟨_, rfl, rfl, rfl⟩

/-- C7: requestGenerativeAIAnswer performs exactly one chat-prompt send to
the host and its promise executor contains no settlement action: the trace
holds no resolvePromise and no rejectPromise event, so the returned promise
is never resolved and never rejected by this component. -/
theorem requestGenerativeAIAnswer_never_settles (tabID : String) (payload : ChatPayload) :
    (∃ m, requestGenerativeAIAnswer tabID payload = [Event.sendMessageToExtension m] ∧
      m.command = some "chat-prompt" ∧ m.tabType = some "featuredev" ∧
      m.tabID = some tabID ∧ m.chatMessage = some payload.chatMessage) ∧
    Event.resolvePromise ∉ requestGenerativeAIAnswer tabID payload ∧
    Event.rejectPromise ∉ requestGenerativeAIAnswer tabID payload := by
  refine ⟨⟨_, rfl, rfl, rfl, rfl, rfl⟩, ?_, ?_⟩ <;> simp [requestGenerativeAIAnswer]

/-- C8 counterexample: an async-event-progress record without a message
field reaches the async-progress callback with an undefined message
argument, not with the empty string. -/
theorem asyncEventProgress_absent_message_is_undefined :
    handleMessageReceive colW cfgBoth mdAsyncNoMsg =
      [Event.onAsyncEventProgress (some "tab-1") (some true) none true] ∧
    Event.onAsyncEventProgress (some "tab-1") (some true) none true ≠
      Event.onAsyncEventProgress (some "tab-1") (some true) (some "") true := by
  exact ⟨rfl, by decide⟩

/-- C8 (amended): for every async-event-progress record, dispatch invokes
the async-progress UI callback exactly once with the tab id, the
in-progress flag, the message field passed through unchanged (undefined
when absent), and a constant cancel-button-visible flag of true. -/
theorem asyncEventProgress_dispatch (col : Collaborators) (cfg : ConnectorConfig) (md : MessageData)
    (htag : md.type = some "asyncEventProgressMessage") :
    handleMessageReceive col cfg md =
      [Event.onAsyncEventProgress md.tabID md.inProgress md.message true] := by
  simp [handleMessageReceive, htag]

/-- C8 witness: the amended claim evaluated on a record with a message. -/
theorem asyncEventProgress_dispatch_witness :
    handleMessageReceive colW cfgBoth mdAsyncMsg =
      [Event.onAsyncEventProgress (some "tab-1") (some true) (some "working") true] :=
  asyncEventProgress_dispatch colW cfgBoth mdAsyncMsg rfl

/-- C9: when the answer-received callback was not supplied, a code-result
record produces no observable effect at all; in particular the bookkeeping
send to the host is skipped together with the UI callback. -/
theorem codeResult_noop_without_callback (col : Collaborators) (cfg : ConnectorConfig) (md : MessageData)
    (hrecv : cfg.hasOnChatAnswerReceived = false) (htag : md.type = some "codeResultMessage") :
    handleMessageReceive col cfg md = [] := by
  simp [handleMessageReceive, htag, processCodeResultMessage, hrecv]

/-- C9 witness: a concrete code-result record under a connector without the
answer-received callback. -/
theorem codeResult_noop_without_callback_witness :
    handleMessageReceive colW cfgNoRecv mdCodeRes = [] :=
  codeResult_noop_without_callback colW cfgNoRecv mdCodeRes rfl rfl

/-- C1: with the injected callbacks supplied, each of the twelve recognized
inbound type tags invokes exactly one specific UI callback, the one
documented for that tag (the auth-needed tag calls that one callback twice,
but no other callback); a record whose tag matches none of the twelve
produces the empty trace: no callback, no send, and the dispatch function
is total, so no error and no logging. -/
theorem handleMessageReceive_tag_dispatch (col : Collaborators) (cfg : ConnectorConfig) (md : MessageData)
    (hrecv : cfg.hasOnChatAnswerReceived = true) (hupd : cfg.hasOnChatAnswerUpdated = true) :
    (md.type = some "updateFileComponent" → uiCallbacksOf (handleMessageReceive col cfg md) = [UiCallback.fileComponentUpdate]) ∧
    (md.type = some "updateChatAnswer" → uiCallbacksOf (handleMessageReceive col cfg md) = [UiCallback.chatAnswerUpdated]) ∧
    (md.type = some "errorMessage" → uiCallbacksOf (handleMessageReceive col cfg md) = [UiCallback.error]) ∧
    (md.type = some "showInvalidTokenNotification" → uiCallbacksOf (handleMessageReceive col cfg md) = [UiCallback.warning]) ∧
    (md.type = some "chatMessage" → uiCallbacksOf (handleMessageReceive col cfg md) = [UiCallback.chatAnswerReceived]) ∧
    (md.type = some "codeResultMessage" → uiCallbacksOf (handleMessageReceive col cfg md) = [UiCallback.chatAnswerReceived]) ∧
    (md.type = some "asyncEventProgressMessage" → uiCallbacksOf (handleMessageReceive col cfg md) = [UiCallback.asyncEventProgress]) ∧
    (md.type = some "updatePlaceholderMessage" → uiCallbacksOf (handleMessageReceive col cfg md) = [UiCallback.updatePlaceholder]) ∧
    (md.type = some "chatInputEnabledMessage" → uiCallbacksOf (handleMessageReceive col cfg md) = [UiCallback.chatInputEnabled]) ∧
    (md.type = some "authenticationUpdateMessage" → uiCallbacksOf (handleMessageReceive col cfg md) = [UiCallback.updateAuthentication]) ∧
    (md.type = some "authNeededException" → uiCallbacksOf (handleMessageReceive col cfg md) = [UiCallback.chatAnswerReceived]) ∧
    (md.type = some "openNewTabMessage" → uiCallbacksOf (handleMessageReceive col cfg md) = [UiCallback.newTab]) ∧
    ((∀ t ∈ recognizedTags, md.type ≠ some t) → handleMessageReceive col cfg md = []) := by
  refine ⟨?_, ?_, ?_, ?_, ?_, ?_, ?_, ?_, ?_, ?_, ?_, ?_, ?_⟩
  · intro h
    simp [handleMessageReceive, h, uiCallbacksOf, Event.uiCallback, List.dedup]
  · intro h
    simp [handleMessageReceive, h, hupd, uiCallbacksOf, Event.uiCallback, List.dedup]
  · intro h
    simp [handleMessageReceive, h, uiCallbacksOf, Event.uiCallback, List.dedup]
  · intro h
    simp [handleMessageReceive, h, uiCallbacksOf, Event.uiCallback, List.dedup]
  · intro h
    simp [handleMessageReceive, h, processChatMessage, hrecv, uiCallbacksOf, Event.uiCallback, List.dedup]
  · intro h
    simp [handleMessageReceive, h, processCodeResultMessage, hrecv, uiCallbacksOf, Event.uiCallback, List.dedup]
  · intro h
    simp [handleMessageReceive, h, uiCallbacksOf, Event.uiCallback, List.dedup]
  · intro h
    simp [handleMessageReceive, h, uiCallbacksOf, Event.uiCallback, List.dedup]
  · intro h
    simp [handleMessageReceive, h, uiCallbacksOf, Event.uiCallback, List.dedup]
  · intro h
    simp [handleMessageReceive, h, uiCallbacksOf, Event.uiCallback, List.dedup]
  · intro h
    simp [handleMessageReceive, h, processAuthNeededException, hrecv, uiCallbacksOf, Event.uiCallback, List.dedup]
  · intro h
    simp [handleMessageReceive, h, uiCallbacksOf, Event.uiCallback, List.dedup]
  · intro h
    simp [recognizedTags] at h
    obtain ⟨h1, h2, h3, h4, h5, h6, h7, h8, h9, h10, h11, h12⟩ := h
    simp [handleMessageReceive, h1, h2, h3, h4, h5, h6, h7, h8, h9, h10, h11, h12]

/-- C1 witness: a chat-message record reaches exactly the answer-received
callback, and an unrecognized tag produces the empty trace. -/
theorem handleMessageReceive_tag_dispatch_witness :
    uiCallbacksOf (handleMessageReceive colW cfgBoth mdChatMsg) = [UiCallback.chatAnswerReceived] ∧
    handleMessageReceive colW cfgBoth mdBogus = [] :=
  ⟨(handleMessageReceive_tag_dispatch colW cfgBoth mdChatMsg rfl rfl).2.2.2.2.1 rfl,
   (handleMessageReceive_tag_dispatch colW cfgBoth mdBogus rfl rfl).2.2.2.2.2.2.2.2.2.2.2.2 (by decide)⟩

/-- C2 counterexample: the update-chat-answer path does not reuse the
five-field precedence: on a record where only conversationID and
codeGenerationId are set, the answer built for an update-chat-answer
message resolves the id to the empty string, not to the conversation id. -/
theorem updateChatAnswer_ignores_conversationID :
    handleMessageReceive colW cfgBoth mdOnlyConv =
      [Event.onChatAnswerUpdated (some "tab-1") (createAnswer mdOnlyConv)] ∧
    (createAnswer mdOnlyConv).messageId = some "" ∧
    mdOnlyConv.conversationID = some "conv" ∧
    (some "" : Option String) ≠ some "conv" :=
  ⟨rfl, by decide, rfl, by decide⟩

/-- C2 (amended): the code-result path resolves the message id by the fixed
first-non-missing precedence messageId, messageID, triggerID,
conversationID, codeGenerationId, so with both messageId and triggerID set
it equals messageId and with only conversationID and codeGenerationId set
it equals conversationID; the update-chat-answer construction uses only the
first three fields of that precedence, falling back to the empty string. -/
theorem messageId_resolution_precedence (col : Collaborators) (cfg : ConnectorConfig) (md : MessageData)
    (hrecv : cfg.hasOnChatAnswerReceived = true) :
    (∀ v, md.messageId = some v → codeResultStoreId (processCodeResultMessage col cfg md) = some v) ∧
    (md.messageId = none → ∀ v, md.messageID = some v → codeResultStoreId (processCodeResultMessage col cfg md) = some v) ∧
    (md.messageId = none → md.messageID = none → ∀ v, md.triggerID = some v → codeResultStoreId (processCodeResultMessage col cfg md) = some v) ∧
    (md.messageId = none → md.messageID = none → md.triggerID = none → ∀ v, md.conversationID = some v → codeResultStoreId (processCodeResultMessage col cfg md) = some v) ∧
    (md.messageId = none → md.messageID = none → md.triggerID = none → md.conversationID = none → codeResultStoreId (processCodeResultMessage col cfg md) = md.codeGenerationId) ∧
    (∀ v, md.messageId = some v → (createAnswer md).messageId = some v) ∧
    (md.messageId = none → ∀ v, md.messageID = some v → (createAnswer md).messageId = some v) ∧
    (md.messageId = none → md.messageID = none → ∀ v, md.triggerID = some v → (createAnswer md).messageId = some v) ∧
    (md.messageId = none → md.messageID = none → md.triggerID = none → (createAnswer md).messageId = some "") := by
  refine ⟨?_, ?_, ?_, ?_, ?_, ?_, ?_, ?_, ?_⟩
  · intro v h
    simp [processCodeResultMessage, hrecv, codeResultStoreId, h]
  · intro h1 v h
    simp [processCodeResultMessage, hrecv, codeResultStoreId, h1, h]
  · intro h1 h2 v h
    simp [processCodeResultMessage, hrecv, codeResultStoreId, h1, h2, h]
  · intro h1 h2 h3 v h
    simp [processCodeResultMessage, hrecv, codeResultStoreId, h1, h2, h3, h]
  · intro h1 h2 h3 h4
    simp [processCodeResultMessage, hrecv, codeResultStoreId, h1, h2, h3, h4]
  · intro v h
    simp [createAnswer, h]
  · intro h1 v h
    simp [createAnswer, h1, h]
  · intro h1 h2 v h
    simp [createAnswer, h1, h2, h]
  · intro h1 h2 h3
    simp [createAnswer, h1, h2, h3]

/-- C2 witness: the amended claim evaluated on the two records named by the
claim: both messageId and triggerID set, and only conversationID and
codeGenerationId set. -/
theorem messageId_resolution_precedence_witness :
    codeResultStoreId (processCodeResultMessage colW cfgBoth mdBothIds) = some "mid" ∧
    codeResultStoreId (processCodeResultMessage colW cfgBoth mdOnlyConv) = some "conv" ∧
    (createAnswer mdOnlyConv).messageId = some "" :=
  ⟨(messageId_resolution_precedence colW cfgBoth mdBothIds rfl).1 "mid" rfl,
   (messageId_resolution_precedence colW cfgBoth mdOnlyConv rfl).2.2.2.1 rfl rfl rfl "conv" rfl,
   (messageId_resolution_precedence colW cfgBoth mdOnlyConv rfl).2.2.2.2.2.2.2.2 rfl rfl rfl⟩

/-- C3: a code-result record first produces the store-code-result-message-id
bookkeeping send carrying the resolved message id and the tab id, then the
answer-received callback invocation, in that order; the answer carries a
file list whose actions come from the diff-tree collaborator applied to the
added entries followed by the deleted entries, and whose filePaths and
deletedFiles are exactly the entries path strings in input order. -/
theorem codeResult_send_then_answer (col : Collaborators) (cfg : ConnectorConfig) (md : MessageData)
    (hrecv : cfg.hasOnChatAnswerReceived = true) (htag : md.type = some "codeResultMessage") :
    ∃ store answer fl,
      handleMessageReceive col cfg md =
        [Event.sendMessageToExtension store, Event.onChatAnswerReceived md.tabID answer] ∧
      store.command = some "store-code-result-message-id" ∧
      store.tabID = md.tabID ∧
      store.messageId = jsOr (jsOr (jsOr (jsOr md.messageId md.messageID) md.triggerID) md.conversationID) md.codeGenerationId ∧
      answer.fileList = some fl ∧
      fl.actions = col.getActions (md.filePaths ++ md.deletedFiles) ∧
      fl.filePaths = md.filePaths.map DiffTreeFileInfo.zipFilePath ∧
      fl.deletedFiles = md.deletedFiles.map DiffTreeFileInfo.zipFilePath := by
  have h : handleMessageReceive col cfg md = processCodeResultMessage col cfg md := by
    simp [handleMessageReceive, htag]
  rw [h]
  unfold processCodeResultMessage
  rw [hrecv]
  exact ⟨_, _, _, rfl, rfl, rfl, rfl, rfl, rfl, rfl, rfl⟩

/-- C3 witness: the claim evaluated on a code-result record with two added
files and one deleted file. -/
theorem codeResult_send_then_answer_witness :
    ∃ store answer fl,
      handleMessageReceive colW cfgBoth mdCodeRes =
        [Event.sendMessageToExtension store, Event.onChatAnswerReceived mdCodeRes.tabID answer] ∧
      store.command = some "store-code-result-message-id" ∧
      store.tabID = mdCodeRes.tabID ∧
      store.messageId = jsOr (jsOr (jsOr (jsOr mdCodeRes.messageId mdCodeRes.messageID) mdCodeRes.triggerID) mdCodeRes.conversationID) mdCodeRes.codeGenerationId ∧
      answer.fileList = some fl ∧
      fl.actions = colW.getActions (mdCodeRes.filePaths ++ mdCodeRes.deletedFiles) ∧
      fl.filePaths = mdCodeRes.filePaths.map DiffTreeFileInfo.zipFilePath ∧
      fl.deletedFiles = mdCodeRes.deletedFiles.map DiffTreeFileInfo.zipFilePath :=
  codeResult_send_then_answer colW cfgBoth mdCodeRes rfl rfl

/-- C4: the followUp field of a constructed answer is undefined exactly
when the inbound followUps field is absent or not an array; when a block is
produced, its text is the empty string exactly when the answer type is
system-prompt or the option list is empty, and otherwise is the fixed
prompt string. -/
theorem createAnswer_followUp (md : MessageData) :
    ((createAnswer md).followUp = none ↔ (md.followUps = none ∨ md.followUps = some FollowUpsField.notArray)) ∧
    (∀ fb, (createAnswer md).followUp = some fb →
      (fb.text = some "" ↔ ((createAnswer md).type = some ChatItemType.SYSTEM_PROMPT ∨ fb.options = [])) ∧
      (¬ fb.text = some "" → fb.text = some "Please follow up with one of these")) := by
  constructor
  · cases h : md.followUps with
    | none => simp [createAnswer, h]
    | some f => cases f <;> simp [createAnswer, h]
  · intro fb hfb
    cases h : md.followUps with
    | none => simp [createAnswer, h] at hfb
    | some f =>
      cases f with
      | notArray => simp [createAnswer, h] at hfb
      | arr options =>
        simp [createAnswer, h] at hfb
        have htype : (createAnswer md).type = md.messageType := rfl
        subst hfb
        rw [htype]
        by_cases hc : md.messageType = some ChatItemType.SYSTEM_PROMPT ∨ options = []
        · rw [if_pos hc]
          exact ⟨iff_of_true rfl hc, fun hcontra => absurd rfl hcontra⟩
        · rw [if_neg hc]
          exact ⟨iff_of_false (by simp) hc, fun _ => rfl⟩

/-- C4 witness: a record without followUps yields no block, and a
non-system-prompt record with one option yields the fixed prompt text. -/
theorem createAnswer_followUp_witness :
    (createAnswer mdEmpty).followUp = none ∧
    (createAnswer mdWithFollowUps).followUp = some fbW ∧
    fbW.text = some "Please follow up with one of these" := by
  have hfb : (createAnswer mdWithFollowUps).followUp = some fbW := rfl
  refine ⟨(createAnswer_followUp mdEmpty).1.mpr (Or.inl rfl), hfb, ?_⟩
  have h2 := (createAnswer_followUp mdWithFollowUps).2 fbW hfb
  apply h2.2
  intro hcontra
  rcases h2.1.mp hcontra with h | h
  · exact absurd h (by decide)
  · exact absurd h (by decide)

/-- C6: an auth-needed-exception record with the answer-received callback
registered produces exactly two invocations of that callback in order on
the same tab: first a plain answer with the exception message body and
canBeVoted false, then a system-prompt answer with no body, canBeVoted
false, and the followUp block of the follow-up generator applied to the
featuredev tag and the authType field; without the callback, none. -/
theorem authNeeded_two_answers (col : Collaborators) (cfg : ConnectorConfig) (md : MessageData)
    (htag : md.type = some "authNeededException") :
    (cfg.hasOnChatAnswerReceived = true →
      ∃ a1 a2,
        handleMessageReceive col cfg md =
          [Event.onChatAnswerReceived md.tabID a1, Event.onChatAnswerReceived md.tabID a2] ∧
        a1.type = some ChatItemType.ANSWER ∧ a1.body = md.message ∧ a1.canBeVoted = some false ∧ a1.followUp = none ∧
        a2.type = some ChatItemType.SYSTEM_PROMPT ∧ a2.body = none ∧ a2.canBeVoted = some false ∧
        a2.followUp = some (col.generateAuthFollowUps "featuredev" md.authType)) ∧
    (cfg.hasOnChatAnswerReceived = false → handleMessageReceive col cfg md = []) := by
  have hh : handleMessageReceive col cfg md = processAuthNeededException col cfg md := by
    simp [handleMessageReceive, htag]
  constructor
  · intro h
    rw [hh]
    unfold processAuthNeededException
    rw [h]
    exact ⟨_, _, rfl, rfl, rfl, rfl, rfl, rfl, rfl, rfl, rfl⟩
  · intro h
    rw [hh]
    simp [processAuthNeededException, h]

/-- C6 witness: the claim evaluated on a concrete auth-needed record, with
and without the answer-received callback. -/
theorem authNeeded_two_answers_witness :
    (∃ a1 a2,
      handleMessageReceive colW cfgBoth mdAuth =
        [Event.onChatAnswerReceived mdAuth.tabID a1, Event.onChatAnswerReceived mdAuth.tabID a2] ∧
      a1.type = some ChatItemType.ANSWER ∧ a1.body = mdAuth.message ∧ a1.canBeVoted = some false ∧ a1.followUp = none ∧
      a2.type = some ChatItemType.SYSTEM_PROMPT ∧ a2.body = none ∧ a2.canBeVoted = some false ∧
      a2.followUp = some (colW.generateAuthFollowUps "featuredev" mdAuth.authType)) ∧
    handleMessageReceive colW cfgNoRecv mdAuth = [] :=
  ⟨(authNeeded_two_answers colW cfgBoth mdAuth rfl).1 rfl,
   (authNeeded_two_answers colW cfgNoRecv mdAuth rfl).2 rfl⟩

/-- C10: when messageId, messageID and triggerID are all absent, the answer
built by createAnswer carries the empty string as its message id, not an
undefined one; and the construction never consults conversationID or
codeGenerationId: changing them changes nothing in the result. -/
theorem createAnswer_messageId_empty_default (md : MessageData) :
    (∀ c g, createAnswer { md with conversationID := c, codeGenerationId := g } = createAnswer md) ∧
    (md.messageId = none → md.messageID = none → md.triggerID = none →
      (createAnswer md).messageId = some "") := by
  constructor
  · intro c g
    rfl
  · intro h1 h2 h3
    simp [createAnswer, h1, h2, h3]

/-- C10 witness: the claim evaluated on the record with every identifier
field absent. -/
theorem createAnswer_messageId_empty_default_witness :
    createAnswer { mdEmpty with conversationID := some "conv", codeGenerationId := some "cg" } = createAnswer mdEmpty ∧
    (createAnswer mdEmpty).messageId = some "" :=
  ⟨(createAnswer_messageId_empty_default mdEmpty).1 (some "conv") (some "cg"),
   (createAnswer_messageId_empty_default mdEmpty).2 rfl rfl rfl⟩

end FeatureDevChat
